import Mathlib

/-!
Verification of the element classification / prioritization core of the
smart-button-automation repository (files `click_api.py` and
`enhanced_web_analyzer.py`).  Python strings are embedded as `List Char`;
the Python substring test `p in s` becomes list-infix containment.
-/

/-- Python `p in s` substring containment test on character lists. -/
def inStr (p s : List Char) : Bool := decide (p <:+: s)

/-- The `cookie_patterns` list of `categorize_button` (`click_api.py`). -/
def cookie_patterns : List (List Char) :=
  ["accept all".data, "accept cookies".data, "allow all".data, "allow cookies".data,
   "agree and continue".data, "accept and continue".data, "cookie".data, "consent".data,
   "i accept".data, "i agree".data, "موافق على الكوكيز".data, "قبول الكوكيز".data, "موافق".data]

/-- The `terms_patterns` list of `categorize_button`. -/
def terms_patterns : List (List Char) :=
  ["accept terms".data, "agree terms".data, "accept conditions".data, "agree conditions".data,
   "i agree to terms".data, "accept privacy".data, "موافق على الشروط".data, "قبول الشروط".data,
   "terms".data, "privacy policy".data, "موافقة على الشروط".data]

/-- The `navigation_patterns` list of `categorize_button`. -/
def navigation_patterns : List (List Char) :=
  ["next".data, "continue".data, "proceed".data, "forward".data, "التالي".data,
   "متابعة".data, "المتابعة".data]

/-- The `submit_patterns` list of `categorize_button` (declared in the source
but not consulted by the scan: the submit branch tests the `type` attribute
and tag instead). -/
def submit_patterns : List (List Char) :=
  ["submit".data, "send".data, "post".data, "save".data, "إرسال".data, "حفظ".data, "تقديم".data]

/-- The `search_patterns` list of `categorize_button`. -/
def search_patterns : List (List Char) :=
  ["search".data, "find".data, "بحث".data, "البحث".data]

/-- The `cancel_patterns` list of `categorize_button`. -/
def cancel_patterns : List (List Char) :=
  ["cancel".data, "close".data, "dismiss".data, "skip".data, "not now".data, "later".data,
   "إلغاء".data, "إغلاق".data, "تجاهل".data, "لاحقاً".data, "ليس الآن".data]

/-- The `choice_patterns` list of `categorize_button`. -/
def choice_patterns : List (List Char) :=
  ["yes".data, "no".data, "ok".data, "confirm".data, "نعم".data, "لا".data,
   "موافق".data, "تأكيد".data]

/-- First pattern of `pats` occurring as a substring of `t`; models the Python
loop `for pattern in pats: if pattern in combined_text: return ...`. -/
def findPat (pats : List (List Char)) (t : List Char) : Option (List Char) :=
  pats.find? (fun p => inStr p t)

/-- The submit-branch condition of `categorize_button`:
`type_attr == 'submit' or tag_name == 'button' and 'submit' in combined_text`
(Python binds `and` tighter than `or`). -/
def submit_cond (combined_text type_attr tag_name : List Char) : Bool :=
  type_attr == "submit".data ||
    (tag_name == "button".data && inStr "submit".data combined_text)

/-- Embedding of `SmartButtonAutomation.categorize_button` (`click_api.py`
lines 252–325): a first-match-wins scan in the source's order — cookie,
terms, submit condition, navigation, search, choice, cancel, then the
`general` default whose description truncates the combined text to 50
characters. -/
def categorize_button (combined_text type_attr tag_name : List Char) :
    String × Nat × List Char :=
  match findPat cookie_patterns combined_text with
  | some p => ("cookie_consent", 10, "Cookie Consent Button: ".data ++ p)
  | none =>
  match findPat terms_patterns combined_text with
  | some p => ("terms_agreement", 9, "Terms Agreement Button: ".data ++ p)
  | none =>
  if submit_cond combined_text type_attr tag_name then
    ("submit", 8, "Form Submit Button".data)
  else
  match findPat navigation_patterns combined_text with
  | some p => ("navigation", 7, "Navigation Button: ".data ++ p)
  | none =>
  match findPat search_patterns combined_text with
  | some p => ("search", 6, "Search Button: ".data ++ p)
  | none =>
  match findPat choice_patterns combined_text with
  | some p => ("choice", 5, "Choice Button: ".data ++ p)
  | none =>
  match findPat cancel_patterns combined_text with
  | some p => ("cancel", 2, "Cancel/Close Button: ".data ++ p)
  | none => ("general", 3, "General Button: ".data ++ combined_text.take 50)

/-- The eight category/priority pairs `categorize_button` can produce. -/
def category_priority_pairs : List (String × Nat) :=
  [("cookie_consent", 10), ("terms_agreement", 9), ("submit", 8), ("navigation", 7),
   ("search", 6), ("choice", 5), ("cancel", 2), ("general", 3)]

-- Basic facts about `inStr` and `findPat`.

theorem inStr_iff {p s : List Char} : inStr p s = true ↔ p <:+: s := by
  simp [inStr]

theorem inStr_trans {a b c : List Char} (h₁ : inStr a b = true) (h₂ : inStr b c = true) :
    inStr a c = true := by
  rw [inStr_iff] at *
  exact h₁.trans h₂

theorem findPat_eq_none_iff {pats : List (List Char)} {t : List Char} :
    findPat pats t = none ↔ ∀ p ∈ pats, inStr p t = false := by
  simp [findPat, List.find?_eq_none]

theorem findPat_isSome_of_mem {pats : List (List Char)} {t p : List Char}
    (hp : p ∈ pats) (h : inStr p t = true) : (findPat pats t).isSome := by
  have h' : ∃ x ∈ pats, (fun q => inStr q t) x = true := ⟨p, hp, h⟩
  simpa [findPat] using List.find?_isSome.2 h'

/-- C1: `categorize_button` consults the pattern tables in the fixed order
cookie_consent, terms_agreement, submit, navigation, search, choice, cancel
and returns the first category whose trigger matches; in particular any
combined text containing both a cookie-consent keyword and a cancel keyword
is categorized `cookie_consent` with priority 10. -/
theorem categorize_button_first_match_wins (t ty tag : List Char) :
    (∀ p, findPat cookie_patterns t = some p →
      categorize_button t ty tag = ("cookie_consent", 10, "Cookie Consent Button: ".data ++ p)) ∧
    (∀ p, findPat cookie_patterns t = none → findPat terms_patterns t = some p →
      categorize_button t ty tag = ("terms_agreement", 9, "Terms Agreement Button: ".data ++ p)) ∧
    (findPat cookie_patterns t = none → findPat terms_patterns t = none →
      submit_cond t ty tag = true →
      categorize_button t ty tag = ("submit", 8, "Form Submit Button".data)) ∧
    (∀ p, findPat cookie_patterns t = none → findPat terms_patterns t = none →
      submit_cond t ty tag = false → findPat navigation_patterns t = some p →
      categorize_button t ty tag = ("navigation", 7, "Navigation Button: ".data ++ p)) ∧
    (∀ p, findPat cookie_patterns t = none → findPat terms_patterns t = none →
      submit_cond t ty tag = false → findPat navigation_patterns t = none →
      findPat search_patterns t = some p →
      categorize_button t ty tag = ("search", 6, "Search Button: ".data ++ p)) ∧
    (∀ p, findPat cookie_patterns t = none → findPat terms_patterns t = none →
      submit_cond t ty tag = false → findPat navigation_patterns t = none →
      findPat search_patterns t = none → findPat choice_patterns t = some p →
      categorize_button t ty tag = ("choice", 5, "Choice Button: ".data ++ p)) ∧
    (∀ p, findPat cookie_patterns t = none → findPat terms_patterns t = none →
      submit_cond t ty tag = false → findPat navigation_patterns t = none →
      findPat search_patterns t = none → findPat choice_patterns t = none →
      findPat cancel_patterns t = some p →
      categorize_button t ty tag = ("cancel", 2, "Cancel/Close Button: ".data ++ p)) ∧
    (findPat cookie_patterns t = none → findPat terms_patterns t = none →
      submit_cond t ty tag = false → findPat navigation_patterns t = none →
      findPat search_patterns t = none → findPat choice_patterns t = none →
      findPat cancel_patterns t = none →
      categorize_button t ty tag = ("general", 3, "General Button: ".data ++ t.take 50)) ∧
    ((∃ p ∈ cookie_patterns, inStr p t = true) → (∃ q ∈ cancel_patterns, inStr q t = true) →
      (categorize_button t ty tag).1 = "cookie_consent" ∧
        (categorize_button t ty tag).2.1 = 10) := by
  refine ⟨?_, ?_, ?_, ?_, ?_, ?_, ?_, ?_, ?_⟩
  · intro p h; simp [categorize_button, h]
  · intro p h0 h; simp [categorize_button, h0, h]
  · intro h0 h1 h2; simp [categorize_button, h0, h1, h2]
  · intro p h0 h1 h2 h; simp [categorize_button, h0, h1, h2, h]
  · intro p h0 h1 h2 h3 h; simp [categorize_button, h0, h1, h2, h3, h]
  · intro p h0 h1 h2 h3 h4 h; simp [categorize_button, h0, h1, h2, h3, h4, h]
  · intro p h0 h1 h2 h3 h4 h5 h; simp [categorize_button, h0, h1, h2, h3, h4, h5, h]
  · intro h0 h1 h2 h3 h4 h5 h6; simp [categorize_button, h0, h1, h2, h3, h4, h5, h6]
  · rintro ⟨p, hp, hin⟩ _
    obtain ⟨q, hq⟩ := Option.isSome_iff_exists.1 (findPat_isSome_of_mem hp hin)
    simp [categorize_button, hq]

/-- C1 witness: a combined text containing both the cookie keyword `cookie`
and the cancel keyword `cancel` is categorized `cookie_consent`, 10. -/
theorem categorize_button_first_match_wins_witness :
    (categorize_button "cookie cancel".data [] []).1 = "cookie_consent" ∧
      (categorize_button "cookie cancel".data [] []).2.1 = 10 :=
  (categorize_button_first_match_wins "cookie cancel".data [] []).2.2.2.2.2.2.2.2
    ⟨"cookie".data, by decide, by decide⟩ ⟨"cancel".data, by decide, by decide⟩

/-- C2: `categorize_button` is total and its category/priority pair is always
one of the eight fixed pairs; category determines priority; every priority
lies between 2 and 10. -/
theorem categorize_button_pair_mem (t ty tag : List Char) :
    ((categorize_button t ty tag).1, (categorize_button t ty tag).2.1)
        ∈ category_priority_pairs ∧
    2 ≤ (categorize_button t ty tag).2.1 ∧ (categorize_button t ty tag).2.1 ≤ 10 ∧
    (∀ t' ty' tag', (categorize_button t ty tag).1 = (categorize_button t' ty' tag').1 →
      (categorize_button t ty tag).2.1 = (categorize_button t' ty' tag').2.1) := by
  have key : ∀ u uy ug, ((categorize_button u uy ug).1, (categorize_button u uy ug).2.1)
      ∈ category_priority_pairs := by
    intro u uy ug
    unfold categorize_button
    repeat' split
    all_goals simp [category_priority_pairs]
  have bounds : ∀ x ∈ category_priority_pairs, 2 ≤ x.2 ∧ x.2 ≤ 10 := by decide
  have det : ∀ x ∈ category_priority_pairs, ∀ y ∈ category_priority_pairs,
      x.1 = y.1 → x.2 = y.2 := by decide
  refine ⟨key t ty tag, (bounds _ (key t ty tag)).1, (bounds _ (key t ty tag)).2, ?_⟩
  intro t' ty' tag' hcat
  exact det _ (key t ty tag) _ (key t' ty' tag') hcat

/-- C2 witness: two inputs with equal category (`general`) get equal priority,
and the pair for a concrete input is among the eight, between 2 and 10. -/
theorem categorize_button_pair_mem_witness :
    (categorize_button "hello".data [] []).2.1 = (categorize_button "world".data [] []).2.1 :=
  (categorize_button_pair_mem "hello".data [] []).2.2.2 "world".data [] [] (by decide)

/-- C9: a combined text containing the cancel keyword `not now` (which has
the choice keyword `no` as a substring) that matches none of the earlier
tables (cookie, terms, submit condition, navigation, search) is categorized
`choice` with priority 5, never `cancel`. -/
theorem categorize_button_not_now_choice (t ty tag : List Char)
    (hnn : inStr "not now".data t = true)
    (hc : findPat cookie_patterns t = none)
    (ht : findPat terms_patterns t = none)
    (hs : submit_cond t ty tag = false)
    (hn : findPat navigation_patterns t = none)
    (hse : findPat search_patterns t = none) :
    (categorize_button t ty tag).1 = "choice" ∧ (categorize_button t ty tag).2.1 = 5 := by
  have hno : inStr "no".data t = true := inStr_trans (by decide) hnn
  obtain ⟨p, hp⟩ := Option.isSome_iff_exists.1
    (findPat_isSome_of_mem (show "no".data ∈ choice_patterns by decide) hno)
  simp [categorize_button, hc, ht, hs, hn, hse, hp]

/-- C9 witness: the text `not now` itself is categorized `choice`, 5. -/
theorem categorize_button_not_now_choice_witness :
    (categorize_button "not now".data [] []).1 = "choice" ∧
      (categorize_button "not now".data [] []).2.1 = 5 :=
  categorize_button_not_now_choice "not now".data [] []
    (by decide) (by decide) (by decide) (by decide) (by decide) (by decide)

/-!
The typing guard `wait_for_typing_completion` (`click_api.py` lines 354–406).
The input field's value over simulated time is a function `v : Nat → Option
(List Char)`: `v t` is the value read at second `t`, `none` meaning the read
raised an exception.  The embedding returns, besides the Boolean result of
the Python function, the exit path taken and the simulated second at which
the function returned, so that "stable exactly at second t" is expressible.
-/

/-- Exit paths of `wait_for_typing_completion`, one per `return`/`break` site. -/
inductive GuardExit where
  /-- field empty, still empty after the one-time 5-second wait -/
  | noTyping : GuardExit
  /-- exception re-reading the empty field after the 5-second wait -/
  | emptyReadError : GuardExit
  /-- stability counter reached 3 inside the monitoring loop -/
  | stable : GuardExit
  /-- exception while polling inside the monitoring loop (`break`) -/
  | readError : GuardExit
  /-- monitoring loop exhausted `max_wait` cycles -/
  | timeout : GuardExit
deriving DecidableEq

/-- Python truthiness of `s.strip()`: `true` iff `s` is all whitespace. -/
def is_blank (s : List Char) : Bool := s.all (fun c => c.isWhitespace)

/-- The monitoring loop of `wait_for_typing_completion`: each cycle sleeps one
second, reads the value, and either resets or increments the stability
counter; counter 3 means stable; a read exception breaks out; running out of
cycles is the timeout path.  All three paths return `true`. -/
def monitor_typing (v : Nat → Option (List Char)) (last_value : List Char)
    (stable_count : Nat) (t : Nat) : Nat → Bool × GuardExit × Nat
  | 0 => (true, GuardExit.timeout, t)
  | fuel + 1 =>
    match v (t + 1) with
    | none => (true, GuardExit.readError, t + 1)
    | some current =>
      if current = last_value then
        if stable_count + 1 ≥ 3 then (true, GuardExit.stable, t + 1)
        else monitor_typing v current (stable_count + 1) (t + 1) fuel
      else monitor_typing v current 0 (t + 1) fuel

/-- Embedding of `wait_for_typing_completion`: the initial read happens at
second 0 (an exception leaves `initial_value` empty); an empty field gets one
5-second wait and a re-read at second 5; otherwise the monitoring loop starts
from the current time with `last_value = initial_value` and up to `max_wait`
cycles. -/
def wait_for_typing_completion (v : Nat → Option (List Char)) (max_wait : Nat) :
    Bool × GuardExit × Nat :=
  let initial_value := (v 0).getD []
  if is_blank initial_value then
    match v 5 with
    | none => (true, GuardExit.emptyReadError, 5)
    | some current =>
      if is_blank current then (true, GuardExit.noTyping, 5)
      else monitor_typing v initial_value 0 5 max_wait
  else monitor_typing v initial_value 0 0 max_wait

/-- The C4 value stream: readings at seconds 0–7 are
`"", "", "", "a", "ab", "ab", "ab", "ab"`, and the value stays `"ab"`
afterwards (nobody types any further). -/
def c4_stream : Nat → Option (List Char) := fun t =>
  some (if t < 3 then [] else if t = 3 then "a".data else "ab".data)

/-- C4: on the stream `"", "", "", "a", "ab", "ab", "ab", "ab"` the guard exits
through the stable path at second 9 and not earlier: the initial read (second
0) is empty, the one-time wait re-reads `"ab"` at second 5, the monitoring
polls at seconds 6–9 read `"ab"` each time, the poll at second 6 differs from
`last_value = ""` so the counter resets, and the polls at seconds 7, 8, 9 are
the three consecutive unchanged readings of `"ab"`; the function returns the
moment the counter reaches 3. -/
theorem wait_for_typing_c4_stable :
    wait_for_typing_completion c4_stream 30 = (true, GuardExit.stable, 9) := by
  decide

/-- The monitoring loop always returns `true`, on all three exit paths. -/
theorem monitor_typing_true (v : Nat → Option (List Char)) (lv : List Char)
    (sc t fuel : Nat) : (monitor_typing v lv sc t fuel).1 = true := by
  induction fuel generalizing lv sc t with
  | zero => rfl
  | succ n ih =>
    unfold monitor_typing
    rcases h : v (t + 1) with _ | current
    · rfl
    · by_cases hc : current = lv <;> simp [hc, ih]
      by_cases hs : 2 ≤ sc <;> simp [hs, ih]

/-- The guard-gate branch of `smart_button_click` (`click_api.py` lines
417–432): a `false` result from the guard would produce the failure message,
a `true` result proceeds to the click. -/
def typing_gate (v : Nat → Option (List Char)) (max_wait : Nat) : Except String Unit :=
  if (wait_for_typing_completion v max_wait).1 then Except.ok ()
  else Except.error "Timeout waiting for typing completion"

/-- C5: for every value stream (stabilizing or not, exceptions included) and
every cycle budget, `wait_for_typing_completion` returns `true`, so the
caller's `Timeout waiting for typing completion` failure branch in
`smart_button_click` is never taken. -/
theorem wait_for_typing_completion_always_true (v : Nat → Option (List Char))
    (max_wait : Nat) :
    (wait_for_typing_completion v max_wait).1 = true ∧
      typing_gate v max_wait = Except.ok () := by
  have h : (wait_for_typing_completion v max_wait).1 = true := by
    unfold wait_for_typing_completion
    by_cases h0 : is_blank ((v 0).getD [])
    · rcases h5 : v 5 with _ | current
      · simp [h0, h5]
      · by_cases hc : is_blank current <;> simp [h0, h5, hc, monitor_typing_true]
    · simp [h0, monitor_typing_true]
  exact ⟨h, by simp [typing_gate, h]⟩

/-!
The orchestrator `process_all_buttons` (`click_api.py` lines 464–520): after
the scan the button list is sorted by priority descending (Python
`list.sort` with `key=priority, reverse=True` — a stable sort, ties keep
discovery order) and processed in order; after a button whose category is
`navigation` or `submit` the loop breaks.  The click outcome of a button is
abstracted as a function `click : ButtonInfo → Bool` (the browser
environment).
-/

/-- The fields of a Button Record relevant to sorting and the process loop. -/
structure ButtonInfo where
  text : List Char
  category : String
  priority : Nat
deriving DecidableEq

/-- The body of the `for button_info in buttons` loop of
`process_all_buttons`: click each button, collect its result and count
successes, and break right after any `navigation` or `submit` button. -/
def process_buttons_loop (click : ButtonInfo → Bool) :
    List ButtonInfo → List (ButtonInfo × Bool) × Nat
  | [] => ([], 0)
  | b :: rest =>
    let r := click b
    if b.category ∈ (["navigation", "submit"] : List String) then
      ([(b, r)], if r then 1 else 0)
    else
      let tail := process_buttons_loop click rest
      ((b, r) :: tail.1, (if r then 1 else 0) + tail.2)

/-- C6: once a `navigation` or `submit` button is processed — click success or
not — the loop stops: with `pre` the buttons before the first such button
`b`, the results are exactly the results for `pre` followed by the result for
`b`, independent of everything after `b`. -/
theorem process_buttons_loop_early_exit (click : ButtonInfo → Bool)
    (pre : List ButtonInfo) (b : ButtonInfo) (rest : List ButtonInfo)
    (hpre : ∀ x ∈ pre, x.category ∉ (["navigation", "submit"] : List String))
    (hb : b.category ∈ (["navigation", "submit"] : List String)) :
    (process_buttons_loop click (pre ++ b :: rest)).1
      = pre.map (fun x => (x, click x)) ++ [(b, click b)] := by
  induction pre with
  | nil => simp [process_buttons_loop, hb]
  | cons x xs ih =>
    have hx := hpre x (by simp)
    have ih' := ih (fun y hy => hpre y (by simp [hy]))
    simp [process_buttons_loop, hx, ih']

/-- C6 witness: for the list `[general, submit, cancel]` the loop processes
the `general` and `submit` entries and leaves the `cancel` entry
unprocessed. -/
theorem process_buttons_loop_early_exit_witness :
    (process_buttons_loop (fun _ => true)
        [⟨"g".data, "general", 3⟩, ⟨"s".data, "submit", 8⟩, ⟨"c".data, "cancel", 2⟩]).1
      = [(⟨"g".data, "general", 3⟩, true), (⟨"s".data, "submit", 8⟩, true)] :=
  process_buttons_loop_early_exit (fun _ => true)
    [⟨"g".data, "general", 3⟩] ⟨"s".data, "submit", 8⟩ [⟨"c".data, "cancel", 2⟩]
    (by decide) (by decide)

/-- Insertion step of the stable descending-by-priority sort: `x` is placed
before the first element whose priority is ≤ `x`'s, i.e. after every
strictly-higher-priority element, so earlier elements of the original list
stay before equal-priority later ones. -/
def insert_by_priority_desc (x : ButtonInfo) : List ButtonInfo → List ButtonInfo
  | [] => [x]
  | y :: ys =>
    if y.priority ≤ x.priority then x :: y :: ys
    else y :: insert_by_priority_desc x ys

/-- Model of Python `buttons.sort(key=lambda x: x['priority'], reverse=True)`
(`click_api.py` line 486 and the same sort in `scan_buttons`): a stable sort
by priority descending. -/
def sort_by_priority_desc (l : List ButtonInfo) : List ButtonInfo :=
  l.foldr insert_by_priority_desc []

theorem insert_by_priority_desc_perm (x : ButtonInfo) (l : List ButtonInfo) :
    List.Perm (insert_by_priority_desc x l) (x :: l) := by
  induction l with
  | nil => exact List.Perm.refl _
  | cons y ys ih =>
    by_cases h : y.priority ≤ x.priority
    · simp only [insert_by_priority_desc, if_pos h]
      exact List.Perm.refl _
    · simp only [insert_by_priority_desc, if_neg h]
      exact (ih.cons y).trans (List.Perm.swap x y ys)

theorem sort_by_priority_desc_perm (l : List ButtonInfo) :
    List.Perm (sort_by_priority_desc l) l := by
  induction l with
  | nil => exact List.Perm.refl _
  | cons x xs ih =>
    exact (insert_by_priority_desc_perm x (sort_by_priority_desc xs)).trans (ih.cons x)

theorem insert_by_priority_desc_pairwise (x : ButtonInfo) (l : List ButtonInfo)
    (h : l.Pairwise (fun a b => b.priority ≤ a.priority)) :
    (insert_by_priority_desc x l).Pairwise (fun a b => b.priority ≤ a.priority) := by
  induction l with
  | nil => simp [insert_by_priority_desc]
  | cons y ys ih =>
    rcases List.pairwise_cons.1 h with ⟨hy, hys⟩
    by_cases hxy : y.priority ≤ x.priority
    · simp only [insert_by_priority_desc, if_pos hxy]
      refine List.pairwise_cons.2 ⟨?_, h⟩
      intro z hz
      rcases List.mem_cons.1 hz with rfl | hz
      · exact hxy
      · exact le_trans (hy z hz) hxy
    · simp only [insert_by_priority_desc, if_neg hxy]
      refine List.pairwise_cons.2 ⟨?_, ih hys⟩
      intro z hz
      rcases List.mem_cons.1 ((insert_by_priority_desc_perm x ys).mem_iff.1 hz) with rfl | hz
      · exact le_of_lt (lt_of_not_le hxy)
      · exact hy z hz

theorem sort_by_priority_desc_pairwise (l : List ButtonInfo) :
    (sort_by_priority_desc l).Pairwise (fun a b => b.priority ≤ a.priority) := by
  induction l with
  | nil => simp [sort_by_priority_desc]
  | cons x xs ih => exact insert_by_priority_desc_pairwise x _ ih

theorem insert_by_priority_desc_filter (x : ButtonInfo) (l : List ButtonInfo) (p : Nat) :
    (insert_by_priority_desc x l).filter (fun b => b.priority == p)
      = (x :: l).filter (fun b => b.priority == p) := by
  induction l with
  | nil => rfl
  | cons y ys ih =>
    by_cases hxy : y.priority ≤ x.priority
    · simp only [insert_by_priority_desc, if_pos hxy]
    · have hyx : x.priority < y.priority := lt_of_not_le hxy
      simp only [insert_by_priority_desc, if_neg hxy]
      by_cases hy : y.priority = p
      · have hx : ¬ x.priority = p := by omega
        simp [List.filter_cons, beq_iff_eq, hy, hx, ih]
      · by_cases hx : x.priority = p <;>
          simp [List.filter_cons, beq_iff_eq, hy, hx, ih]

/-- Rank of a category in the order the claim lists:
cookie_consent, terms_agreement, submit, navigation, search, choice,
general, cancel. -/
def category_rank (c : String) : Nat :=
  if c = "cookie_consent" then 0
  else if c = "terms_agreement" then 1
  else if c = "submit" then 2
  else if c = "navigation" then 3
  else if c = "search" then 4
  else if c = "choice" then 5
  else if c = "general" then 6
  else 7

/-- C7: sorting Button Records by priority descending is total and stable:
the result is a permutation of the input, its priorities are nonincreasing,
records of equal priority keep their original order (the filter at every
priority is unchanged), and when every record carries one of the eight
canonical category/priority pairs the categories appear in the order
cookie_consent, terms_agreement, submit, navigation, search, choice,
general, cancel. -/
theorem sort_by_priority_desc_spec (l : List ButtonInfo) :
    List.Perm (sort_by_priority_desc l) l ∧
    (sort_by_priority_desc l).Pairwise (fun a b => b.priority ≤ a.priority) ∧
    (∀ p : Nat, (sort_by_priority_desc l).filter (fun b => b.priority == p)
        = l.filter (fun b => b.priority == p)) ∧
    ((∀ b ∈ l, (b.category, b.priority) ∈ category_priority_pairs) →
      (sort_by_priority_desc l).Pairwise
        (fun a b => category_rank a.category ≤ category_rank b.category)) := by
  refine ⟨sort_by_priority_desc_perm l, sort_by_priority_desc_pairwise l, ?_, ?_⟩
  · intro p
    induction l with
    | nil => rfl
    | cons x xs ih =>
      calc (sort_by_priority_desc (x :: xs)).filter (fun b => b.priority == p)
          = (x :: sort_by_priority_desc xs).filter (fun b => b.priority == p) :=
            insert_by_priority_desc_filter x _ p
        _ = (x :: xs).filter (fun b => b.priority == p) := by
            by_cases hx : x.priority = p <;> simp [List.filter, hx, ih]
  · intro hmem
    have rank_mono : ∀ x ∈ category_priority_pairs, ∀ y ∈ category_priority_pairs,
        (y.2 ≤ x.2) → category_rank x.1 ≤ category_rank y.1 := by decide
    refine (sort_by_priority_desc_pairwise l).imp_of_mem ?_
    intro a b ha hb hle
    have ha' := hmem a ((sort_by_priority_desc_perm l).subset ha)
    have hb' := hmem b ((sort_by_priority_desc_perm l).subset hb)
    exact rank_mono (a.category, a.priority) ha' (b.category, b.priority) hb' hle

/-- C7 witness: a concrete list `[cancel, submit, general, general]` sorts to
`[submit, general, general, cancel]`, the two equal-priority `general`
records keeping their discovery order, with category ranks nondecreasing. -/
theorem sort_by_priority_desc_spec_witness :
    sort_by_priority_desc
        [⟨"x".data, "cancel", 2⟩, ⟨"s".data, "submit", 8⟩,
         ⟨"g1".data, "general", 3⟩, ⟨"g2".data, "general", 3⟩]
      = [⟨"s".data, "submit", 8⟩, ⟨"g1".data, "general", 3⟩,
         ⟨"g2".data, "general", 3⟩, ⟨"x".data, "cancel", 2⟩] ∧
    (sort_by_priority_desc
        [⟨"x".data, "cancel", 2⟩, ⟨"s".data, "submit", 8⟩,
         ⟨"g1".data, "general", 3⟩, ⟨"g2".data, "general", 3⟩]).Pairwise
      (fun a b => category_rank a.category ≤ category_rank b.category) :=
  ⟨by decide,
   (sort_by_priority_desc_spec
      [⟨"x".data, "cancel", 2⟩, ⟨"s".data, "submit", 8⟩,
       ⟨"g1".data, "general", 3⟩, ⟨"g2".data, "general", 3⟩]).2.2.2 (by decide)⟩

/-!
Embedding of `find_associated_input` (`click_api.py` lines 327–347): the
button's parent container is queried for `input, textarea` elements; the
first visible and enabled one whose effective `type` attribute (defaulting to
`text` when the attribute is absent or empty, Python `get_attribute('type')
or 'text'`) is one of `text`, `search`, `email`, `url` becomes the
associated input.
-/

/-- One candidate element returned by the parent's `input, textarea` query. -/
structure InputEl where
  tag : String
  visible : Bool
  enabled : Bool
  type_attr : Option (List Char)
  placeholder_attr : Option (List Char)
  value : List Char
deriving DecidableEq

/-- The associated-input record built by `find_associated_input`. -/
structure AssociatedInput where
  el : InputEl
  type : List Char
  placeholder : List Char
  value : List Char
deriving DecidableEq

/-- Python `inp.get_attribute('type') or 'text'`: an absent or empty (falsy)
attribute yields the default `text`. -/
def effective_type (a : Option (List Char)) : List Char :=
  match a with
  | none => "text".data
  | some t => if t.isEmpty then "text".data else t

/-- The text-like input types accepted by `find_associated_input`. -/
def allowed_input_types : List (List Char) :=
  ["text".data, "search".data, "email".data, "url".data]

/-- The `for inp in inputs` loop of `find_associated_input`: return the first
visible, enabled candidate whose effective type is allowed; skip all
others. -/
def find_assoc_loop : List InputEl → Option AssociatedInput
  | [] => none
  | inp :: rest =>
    if inp.visible && inp.enabled then
      if effective_type inp.type_attr ∈ allowed_input_types then
        some ⟨inp, effective_type inp.type_attr, inp.placeholder_attr.getD [], inp.value⟩
      else find_assoc_loop rest
    else find_assoc_loop rest

/-- Embedding of `find_associated_input`: `none` when the button has no
parent, otherwise the loop over the parent's `input, textarea` children. -/
def find_associated_input (parent : Option (List InputEl)) : Option AssociatedInput :=
  match parent with
  | none => none
  | some inputs => find_assoc_loop inputs

/-- The gate condition of `smart_button_click` (`click_api.py` lines 417–426):
the typing guard runs exactly when the category is `submit`, `search` or
`navigation`, an associated input exists, and its recorded value is blank or
typing was recently observed. -/
def guard_runs (category : String) (assoc : Option AssociatedInput)
    (typing_recent : Bool) : Bool :=
  match assoc with
  | none => false
  | some a =>
    decide (category ∈ (["submit", "search", "navigation"] : List String)) &&
      (is_blank a.value || typing_recent)

/-- C10: a visible, enabled textarea with no `type` attribute at the head of
the parent's candidate list gets the default type `text`, passes the
text/search/email/url filter, and becomes the associated input; for a
`submit` button with that associated input and a blank current value the
typing guard is triggered before the click. -/
theorem find_associated_input_textarea (i : InputEl) (rest : List InputEl)
    (_htag : i.tag = "textarea") (hty : i.type_attr = none)
    (hvis : i.visible = true) (hen : i.enabled = true) :
    find_associated_input (some (i :: rest))
      = some ⟨i, "text".data, i.placeholder_attr.getD [], i.value⟩ ∧
    (is_blank i.value = true →
      guard_runs "submit" (find_associated_input (some (i :: rest))) false = true) := by
  have h : find_associated_input (some (i :: rest))
      = some ⟨i, "text".data, i.placeholder_attr.getD [], i.value⟩ := by
    simp [find_associated_input, find_assoc_loop, hvis, hen, hty, effective_type,
      allowed_input_types]
  refine ⟨h, ?_⟩
  intro hblank
  simp [h, guard_runs, hblank]

/-- C10 witness: a concrete empty, visible, enabled textarea becomes the
associated input with type `text` and triggers the guard for a submit
button. -/
theorem find_associated_input_textarea_witness :
    find_associated_input (some [⟨"textarea", true, true, none, none, []⟩])
      = some ⟨⟨"textarea", true, true, none, none, []⟩, "text".data, [], []⟩ ∧
    (is_blank ([] : List Char) = true →
      guard_runs "submit"
        (find_associated_input (some [⟨"textarea", true, true, none, none, []⟩])) false
        = true) :=
  find_associated_input_textarea ⟨"textarea", true, true, none, none, []⟩ []
    (by decide) rfl rfl rfl

/-!
The hierarchical path of `generate_advanced_selector`
(`enhanced_web_analyzer.py` lines 74–93).  The element and its chain of named
ancestors (element first, parents upward) are embedded as a `List DomNode`.
The Python loop appends one descriptor per node — `tag#id` for a node with an
`id` attribute (then breaks), otherwise `tag.firstclass` or bare `tag` — and,
after stepping to the parent, breaks once `len(path_parts) > 5`, so the path
holds the element's own descriptor plus at most 5 ancestor descriptors.
-/

/-- A DOM node as seen by the path loop: tag name, optional `id` attribute,
optional `class` attribute (a list of class tokens, possibly empty
strings). -/
structure DomNode where
  name : List Char
  id_attr : Option (List Char)
  class_attr : Option (List (List Char))
deriving DecidableEq

/-- Descriptor of a node without an `id`: `tag.firstclass` using the first
non-empty class token (`[c for c in current['class'] if c]`), or the bare
tag. -/
def plain_descriptor (n : DomNode) : List Char :=
  match n.class_attr with
  | some cls =>
    match cls.filter (fun c => !c.isEmpty) with
    | c :: _ => n.name ++ ".".data ++ c
    | [] => n.name
  | none => n.name

/-- Descriptor of a node with an `id`: `tag#id`. -/
def id_descriptor (n : DomNode) (i : List Char) : List Char :=
  n.name ++ "#".data ++ i

/-- The `while current and current.name` loop building `path_parts`: append
the node's descriptor, break immediately on an `id`-bearing node, and break
when the accumulated path exceeds 5 entries after stepping to the parent. -/
def build_path : List DomNode → List (List Char) → List (List Char)
  | [], acc => acc
  | n :: rest, acc =>
    match n.id_attr with
    | some i => acc ++ [id_descriptor n i]
    | none =>
      let acc' := acc ++ [plain_descriptor n]
      if 5 < acc'.length then acc' else build_path rest acc'

/-- The `path_parts` list computed by `generate_advanced_selector` for an
element whose upward chain of named nodes is `chain` (element first). -/
def hierarchical_path (chain : List DomNode) : List (List Char) :=
  build_path chain []

theorem build_path_length_le (chain : List DomNode) (acc : List (List Char))
    (hacc : acc.length ≤ 5) : (build_path chain acc).length ≤ 6 := by
  induction chain generalizing acc with
  | nil => simpa [build_path] using le_trans hacc (by omega)
  | cons n rest ih =>
    rcases hn : n.id_attr with _ | i
    · have hstep : build_path (n :: rest) acc =
          if 5 < (acc ++ [plain_descriptor n]).length then acc ++ [plain_descriptor n]
          else build_path rest (acc ++ [plain_descriptor n]) := by
        simp [build_path, hn]
      rw [hstep]
      by_cases h : 5 < (acc ++ [plain_descriptor n]).length
      · rw [if_pos h]
        simp only [List.length_append, List.length_cons, List.length_nil] at *
        omega
      · rw [if_neg h]
        refine ih _ ?_
        simp only [List.length_append, List.length_cons, List.length_nil,
          Nat.not_lt] at h ⊢
        omega
    · have hstep : build_path (n :: rest) acc = acc ++ [id_descriptor n i] := by
        simp [build_path, hn]
      rw [hstep]
      simp only [List.length_append, List.length_cons, List.length_nil]
      omega

theorem build_path_stops_at_id (k : Nat) :
    ∀ (chain : List DomNode) (acc : List (List Char)) (n : DomNode) (i : List Char),
    acc.length + k ≤ 5 →
    (∀ m ∈ chain.take k, m.id_attr = none) →
    chain.get? k = some n → n.id_attr = some i →
    build_path chain acc
      = acc ++ (chain.take k).map plain_descriptor ++ [id_descriptor n i] := by
  induction k with
  | zero =>
    intro chain acc n i _ _ hget hid
    cases chain with
    | nil => simp at hget
    | cons m rest =>
      have hm : m = n := by simpa using hget
      subst hm
      simp [build_path, hid]
  | succ k ih =>
    intro chain acc n i hlen hfree hget hid
    cases chain with
    | nil => simp at hget
    | cons m rest =>
      have hm : m.id_attr = none := hfree m (by simp)
      have hnotover : ¬ 5 < (acc ++ [plain_descriptor m]).length := by
        simp; omega
      have hrec := ih rest (acc ++ [plain_descriptor m]) n i
        (by simp; omega)
        (fun x hx => hfree x (by simp [hx]))
        (by simpa using hget) hid
      simp only [build_path, hm, hnotover, if_false]
      simpa [List.append_assoc] using hrec

/-- C3: the hierarchical path holds the element's own descriptor plus at most
5 ancestor descriptors (total length ≤ 6), and construction stops at the
first node bearing an `id`: when the first `k ≤ 5` nodes of the chain are
`id`-free and node `k` has an `id`, the path is exactly the `k` plain
descriptors followed by that node's `tag#id` descriptor — no node above it
contributes. -/
theorem hierarchical_path_spec (chain : List DomNode) :
    (hierarchical_path chain).length ≤ 6 ∧
    (∀ k (n : DomNode) (i : List Char), k ≤ 5 →
      (∀ m ∈ chain.take k, m.id_attr = none) →
      chain.get? k = some n → n.id_attr = some i →
      hierarchical_path chain
        = (chain.take k).map plain_descriptor ++ [id_descriptor n i]) := by
  constructor
  · exact build_path_length_le chain [] (by simp)
  · intro k n i hk hfree hget hid
    simpa [hierarchical_path] using
      build_path_stops_at_id k chain [] n i (by simpa using hk) hfree hget hid

/-- C3 witness: for a chain of three `id`-free nodes over a node with
`id = "top"`, the path is the three plain descriptors followed by `div#top`,
and its length is within the bound. -/
theorem hierarchical_path_spec_witness :
    hierarchical_path
        [⟨"button".data, none, none⟩, ⟨"span".data, none, some ["row".data]⟩,
         ⟨"form".data, none, none⟩, ⟨"div".data, some "top".data, none⟩,
         ⟨"body".data, none, none⟩]
      = ["button".data, "span.row".data, "form".data, "div#top".data] ∧
    (hierarchical_path
        [⟨"button".data, none, none⟩, ⟨"span".data, none, some ["row".data]⟩,
         ⟨"form".data, none, none⟩, ⟨"div".data, some "top".data, none⟩,
         ⟨"body".data, none, none⟩]).length ≤ 6 := by
  have hspec := hierarchical_path_spec
    [⟨"button".data, none, none⟩, ⟨"span".data, none, some ["row".data]⟩,
     ⟨"form".data, none, none⟩, ⟨"div".data, some "top".data, none⟩,
     ⟨"body".data, none, none⟩]
  refine ⟨?_, hspec.1⟩
  have h := hspec.2 3 ⟨"div".data, some "top".data, none⟩ "top".data
    (by decide) (by decide) (by decide) (by decide)
  simpa using h

/-!
The `text_type` assignment of `extract_semantic_info`
(`enhanced_web_analyzer.py` lines 141–155).  The four keyword tests are
Python `re.search` with `\b`-delimited alternations over `text.lower()`; the
digits test is `re.search(r'^\d+$', text)`, the email test is
`re.search(r'@.*\.(com|org|net)', text)` and the url test is
`text.startswith('http')` — these last three run on the original,
non-lowered text.  `\w` (hence `\b`) is modelled for the character classes
occurring in the patterns and inputs: ASCII alphanumerics, underscore, and
the Arabic letter block used by the bilingual keywords.  The analyzed text is
`element.get_text(strip=True)`, so it carries no surrounding whitespace.
-/

/-- Word characters for the boundary test, covering the characters of the
source's patterns: ASCII alphanumerics, underscore, Arabic letters. -/
def is_word_char (c : Char) : Bool :=
  c.isAlphanum || c == '_' || (0x620 ≤ c.toNat && c.toNat ≤ 0x64A)

/-- Boundary on the side of a preceding character: satisfied at the start of
the text or after a non-word character (the pattern alternatives all start
with a word character). -/
def nonword_or_none : Option Char → Bool
  | none => true
  | some c => !is_word_char c

/-- Boundary on the side of the following text: satisfied at the end of the
text or before a non-word character (the alternatives all end with a word
character). -/
def nonword_start : List Char → Bool
  | [] => true
  | c :: _ => !is_word_char c

/-- Occurrence of `pat` somewhere in the remaining text with word boundaries
on both sides; `prev` is the character just before the current position. -/
def wb_match_from (pat : List Char) : Option Char → List Char → Bool
  | prev, [] => pat.isEmpty && nonword_or_none prev
  | prev, c :: rest =>
    (pat.isPrefixOf (c :: rest) && nonword_or_none prev &&
      nonword_start (List.drop pat.length (c :: rest)))
    || wb_match_from pat (some c) rest

/-- Python `re.search(r'\b(p1|p2|...)\b', s)` for alternatives that start and
end with word characters. -/
def wb_search (pats : List (List Char)) (s : List Char) : Bool :=
  pats.any fun p => wb_match_from p none s

/-- Python `str.lower()` for the characters in play. -/
def lower_str (s : List Char) : List Char := s.map Char.toLower

/-- Alternatives of the login regex `\b(تسجيل دخول|login|sign in)\b`. -/
def login_phrases : List (List Char) := ["تسجيل دخول".data, "login".data, "sign in".data]

/-- Alternatives of the search regex `\b(بحث|search)\b`. -/
def search_phrases : List (List Char) := ["بحث".data, "search".data]

/-- Alternatives of the submit regex `\b(إرسال|submit|send)\b`. -/
def submit_phrases : List (List Char) := ["إرسال".data, "submit".data, "send".data]

/-- Alternatives of the cancel regex `\b(إلغاء|cancel|close)\b`. -/
def cancel_phrases : List (List Char) := ["إلغاء".data, "cancel".data, "close".data]

/-- Python `re.search(r'^\d+$', text)` on the stripped text. -/
def all_digits (s : List Char) : Bool := !s.isEmpty && s.all (fun c => c.isDigit)

/-- A `.com`, `.org` or `.net` literal at the current position. -/
def tld_here (s : List Char) : Bool :=
  ".com".data.isPrefixOf s || ".org".data.isPrefixOf s || ".net".data.isPrefixOf s

/-- Scan for a top-level-domain literal reachable without crossing a newline
(`.*` does not match newlines). -/
def dot_tld_search : List Char → Bool
  | [] => false
  | c :: rest => tld_here (c :: rest) || (c != '\n' && dot_tld_search rest)

/-- Python `re.search(r'@.*\.(com|org|net)', text)`: an `@` followed, on the
same line, by `.com`, `.org` or `.net`. -/
def email_like : List Char → Bool
  | [] => false
  | c :: rest => (c == '@' && dot_tld_search rest) || email_like rest

/-- The `text_type` assignment of `extract_semantic_info` for a non-empty
text: the four bilingual keyword tests on the lower-cased text, then the
digits, email and url tests on the original text; the first match wins,
otherwise no `text_type` is set. -/
def semantic_text_type (text : List Char) : Option String :=
  if wb_search login_phrases (lower_str text) then some "login"
  else if wb_search search_phrases (lower_str text) then some "search"
  else if wb_search submit_phrases (lower_str text) then some "submit"
  else if wb_search cancel_phrases (lower_str text) then some "cancel"
  else if all_digits text then some "numeric"
  else if email_like text then some "email"
  else if "http".data.isPrefixOf text then some "url"
  else none

/-- Definition following the claim's words, for the refinement comparison of
C8: the same fixed-order scan but with every test — the digits, email and
http tests included — evaluated against the lower-cased text.  It differs
from `semantic_text_type`, which applies the last three tests to the
original text. -/
def semantic_text_type_claim (text : List Char) : Option String :=
  if wb_search login_phrases (lower_str text) then some "login"
  else if wb_search search_phrases (lower_str text) then some "search"
  else if wb_search submit_phrases (lower_str text) then some "submit"
  else if wb_search cancel_phrases (lower_str text) then some "cancel"
  else if all_digits (lower_str text) then some "numeric"
  else if email_like (lower_str text) then some "email"
  else if "http".data.isPrefixOf (lower_str text) then some "url"
  else none

/-- C8 counterexample: on the text `A@B.COM` the code assigns no `text_type`
(the email regex is case-sensitive and runs on the original text), while the
claim's procedure — every pattern evaluated against the lower-cased text —
assigns `email`; likewise `HTTP://x` gets no `text_type` though the claim's
procedure assigns `url`. -/
theorem semantic_text_type_not_all_lowered :
    semantic_text_type "A@B.COM".data = none ∧
      semantic_text_type_claim "A@B.COM".data = some "email" ∧
      semantic_text_type "HTTP://x".data = none ∧
      semantic_text_type_claim "HTTP://x".data = some "url" := by
  refine ⟨by decide, by decide, by decide, by decide⟩

/-- C8 (amended): `text_type` is assigned by testing, in the fixed order
login, search, submit, cancel, entirely-digits, email-like, starts-with-http,
the four keyword patterns against the lower-cased text and the digits, email
and http tests against the original text; the first matching test determines
`text_type`, and if none matches `text_type` is left unset. -/
theorem semantic_text_type_first_match (t : List Char) :
    (wb_search login_phrases (lower_str t) = true →
      semantic_text_type t = some "login") ∧
    (wb_search login_phrases (lower_str t) = false →
      wb_search search_phrases (lower_str t) = true →
      semantic_text_type t = some "search") ∧
    (wb_search login_phrases (lower_str t) = false →
      wb_search search_phrases (lower_str t) = false →
      wb_search submit_phrases (lower_str t) = true →
      semantic_text_type t = some "submit") ∧
    (wb_search login_phrases (lower_str t) = false →
      wb_search search_phrases (lower_str t) = false →
      wb_search submit_phrases (lower_str t) = false →
      wb_search cancel_phrases (lower_str t) = true →
      semantic_text_type t = some "cancel") ∧
    (wb_search login_phrases (lower_str t) = false →
      wb_search search_phrases (lower_str t) = false →
      wb_search submit_phrases (lower_str t) = false →
      wb_search cancel_phrases (lower_str t) = false →
      all_digits t = true → semantic_text_type t = some "numeric") ∧
    (wb_search login_phrases (lower_str t) = false →
      wb_search search_phrases (lower_str t) = false →
      wb_search submit_phrases (lower_str t) = false →
      wb_search cancel_phrases (lower_str t) = false →
      all_digits t = false → email_like t = true →
      semantic_text_type t = some "email") ∧
    (wb_search login_phrases (lower_str t) = false →
      wb_search search_phrases (lower_str t) = false →
      wb_search submit_phrases (lower_str t) = false →
      wb_search cancel_phrases (lower_str t) = false →
      all_digits t = false → email_like t = false →
      "http".data.isPrefixOf t = true → semantic_text_type t = some "url") ∧
    (wb_search login_phrases (lower_str t) = false →
      wb_search search_phrases (lower_str t) = false →
      wb_search submit_phrases (lower_str t) = false →
      wb_search cancel_phrases (lower_str t) = false →
      all_digits t = false → email_like t = false →
      "http".data.isPrefixOf t = false → semantic_text_type t = none) := by
  refine ⟨?_, ?_, ?_, ?_, ?_, ?_, ?_, ?_⟩ <;>
    intros <;> simp [semantic_text_type, *]

/-- C8 witness: the text `login page` is assigned `text_type = login`, and the
digits text `123` falls through the four keyword tests to `numeric`. -/
theorem semantic_text_type_first_match_witness :
    semantic_text_type "login page".data = some "login" ∧
      semantic_text_type "123".data = some "numeric" :=
  ⟨(semantic_text_type_first_match "login page".data).1 (by decide),
   (semantic_text_type_first_match "123".data).2.2.2.2.1
     (by decide) (by decide) (by decide) (by decide) (by decide)⟩
